import Mathlib

/-!
Shallow embedding of `src/custom_components/zoom/binary_sensor.py`
(Zoom presence binary sensor for a home-automation platform).

The mutable attributes of a sensor entity (`_profile`, `_zoom_event_state`,
`_is_on`, `_attr_available`) are collected in `EntityState`; the per-entity
configuration (`config_entry` data/options, entry id, coordinator data) in
`Config`.  Each method of the Python class becomes a pure function from the
old state (plus the outcome of any awaited external call) to the new state
together with the observable effects of the call (log lines emitted, whether
`async_write_ha_state` was called, whether the fetch capability was invoked).

Python truthiness is modelled explicitly where the source relies on it
(`self.id`, `x or y` on strings/dicts, `if val:` on attribute values, and the
expression `state and state in statuses` inside `_set_state`).
-/

namespace Zoom

/-- A user profile as returned by the profile-fetch capability.
Per the external contract a profile always carries `presence_status`; the
remaining keys are read with `.get` in the source, so they are `Option`s.
The `id` key is named `pid` here to avoid clashing with accessor names. -/
structure Profile where
  pid : Option String
  first_name : Option String
  last_name : Option String
  email : Option String
  account_id : Option String
  presence_status : String
  deriving Repr, DecidableEq

/-- The mutable attributes of `ZoomBaseBinarySensor`.
`profile = none` models `self._profile is None`; a fetched profile is a
non-empty dict, hence truthy.  `is_on` records the truthiness of the Python
value stored in `self._is_on` (which is what the `is_on` property exposes to
the platform).  `available` is `self._attr_available`. -/
structure EntityState where
  profile : Option Profile
  zoom_event_state : Option String
  is_on : Bool
  available : Bool
  deriving Repr, DecidableEq

/-- Per-entity configuration: `config_entry.data.get(CONF_ID)` (`conf_id`),
`config_entry.options[CONF_CONNECTIVITY_ON_STATUSES]` (`connected_statuses`),
`config_entry.entry_id`, and the user-profile coordinator's current data
(read by the `profile` property of the authenticated-user subclass). -/
structure Config where
  conf_id : Option String
  connected_statuses : List String
  entry_id : String
  coordinator_data : Option Profile
  deriving Repr, DecidableEq

/-- State of the entity right after `__init__`: no profile, no status,
`_is_on = False`, `_attr_available = True`. -/
def initState : EntityState :=
  { profile := none, zoom_event_state := none, is_on := false, available := true }

/-- Truthiness of an optional Python string: `None` and `""` are falsy. -/
def strTruthy : Option String → Bool
  | none => false
  | some s => s ≠ ""

/-- Python `a or b` on optional strings: returns `a` when truthy, else `b`. -/
def pyOr (a b : Option String) : Option String :=
  if strTruthy a then a else b

/-- The `profile` property of the authenticated-user subclass:
`self._profile or self._coordinator.data or {}`, with `none` standing for
the final empty-dict fallback. -/
def profileOf (cfg : Config) (st : EntityState) : Option Profile :=
  match st.profile with
  | some p => some p
  | none => cfg.coordinator_data

/-- The `id` property: `config_entry.data.get(CONF_ID) or profile.get("id")`. -/
def entityId (cfg : Config) (st : EntityState) : Option String :=
  pyOr cfg.conf_id ((profileOf cfg st).bind Profile.pid)

/-- Truthiness of `self.id`, the guard used by `_async_update` and
`async_added_to_hass`. -/
def idTruthy (cfg : Config) (st : EntityState) : Bool :=
  strTruthy (entityId cfg st)

/-- The `first_name` property. -/
def first_name (cfg : Config) (st : EntityState) : Option String :=
  (profileOf cfg st).bind Profile.first_name

/-- The `last_name` property. -/
def last_name (cfg : Config) (st : EntityState) : Option String :=
  (profileOf cfg st).bind Profile.last_name

/-- The `email` property. -/
def email (cfg : Config) (st : EntityState) : Option String :=
  (profileOf cfg st).bind Profile.email

/-- The `account_id` property. -/
def account_id (cfg : Config) (st : EntityState) : Option String :=
  (profileOf cfg st).bind Profile.account_id

/-- `_set_state(zoom_event_state)`: store the raw status and recompute
`_is_on` as the Python expression
`zoom_event_state and zoom_event_state in connected_statuses`.
That expression evaluates to `None` when the status is `None`, to `""` when
it is the empty string, and to the boolean membership test otherwise; the
`is_on` field records its truthiness. -/
def set_state (cs : List String) (st : EntityState) (s : Option String) : EntityState :=
  { st with
    zoom_event_state := s
    is_on :=
      match s with
      | none => false
      | some str => str ≠ "" && cs.contains str }

/-- The `extra_state_attributes` property: the truthy ones among
{id, first_name, last_name, email, account_id}, plus the raw status when
truthy; `none` (Python `None`) when the map would be empty. -/
def extra_state_attributes (cfg : Config) (st : EntityState) :
    Option (List (String × String)) :=
  let pick : String × Option String → Option (String × String) := fun p =>
    match p.2 with
    | some s => if s ≠ "" then some (p.1, s) else none
    | none => none
  let data : List (String × String) :=
    ([("id", entityId cfg st), ("first_name", first_name cfg st),
      ("last_name", last_name cfg st), ("email", email cfg st),
      ("account_id", account_id cfg st)].filterMap pick) ++
    (match st.zoom_event_state with
     | some s => if s ≠ "" then [("status", s)] else []
     | none => [])
  if data.isEmpty then none else some data

/-- Outcome of one call to the awaited fetch capability
`self._api.async_get_contact_user_profile(self.id)`:
success with a profile, an `HTTPUnauthorized` exception, or any other
exception.  The bare `except:` of `_async_update` treats the last two
alike; `async_added_to_hass` distinguishes them. -/
inductive FetchResult where
  | ok (p : Profile)
  | authErr
  | err
  deriving Repr, DecidableEq

/-- Whether a fetch outcome is a success. -/
def FetchResult.isSuccess : FetchResult → Bool
  | .ok _ => true
  | _ => false

/-- Result of one poller tick: the new entity state, the number of recovery
info logs and of unreachable warning logs emitted, and whether
`async_write_ha_state` was called. -/
structure UpdateResult where
  st : EntityState
  infoLogs : Nat
  warnLogs : Nat
  wrote : Bool
  deriving Repr, DecidableEq

/-- `_async_update(now)`: when `self.id` is truthy, fetch the profile.
On success store it into `_profile`; if the entity was unavailable, also
log a recovery info line, push the fresh `presence_status` through
`_set_state`, flip `_attr_available` to `True` and write HA state.
On any exception, if the entity was available, log a warning, flip
`_attr_available` to `False` and write HA state; otherwise do nothing. -/
def async_update (cfg : Config) (st : EntityState) (fetch : FetchResult) :
    UpdateResult :=
  if idTruthy cfg st then
    match fetch with
    | .ok p =>
      let st1 := { st with profile := some p }
      if st1.available then
        ⟨st1, 0, 0, false⟩
      else
        let st2 := set_state cfg.connected_statuses st1 (some p.presence_status)
        ⟨{ st2 with available := true }, 1, 0, true⟩
    | _ =>
      if st.available then
        ⟨{ st with available := false }, 0, 1, true⟩
      else
        ⟨st, 0, 0, false⟩
  else
    ⟨st, 0, 0, false⟩

/-- Run the poller over a finite sequence of fetch outcomes, accumulating
the total numbers of recovery info logs and of warning logs. -/
def pollSeq (cfg : Config) : EntityState → List FetchResult → EntityState × Nat × Nat
  | st, [] => (st, 0, 0)
  | st, f :: rest =>
    let r := async_update cfg st f
    let t := pollSeq cfg r.st rest
    (t.1, r.infoLogs + t.2.1, r.warnLogs + t.2.2)

/-- Number of failure-after-success edges in a sequence of poll outcomes,
with the availability flag before the first outcome standing in for the
outcome preceding position 0. -/
def failEdges : Bool → List FetchResult → Nat
  | _, [] => 0
  | a, f :: rest =>
    (if a && !f.isSuccess then 1 else 0) + failEdges f.isSuccess rest

/-- Number of success-after-failure edges in a sequence of poll outcomes,
with the availability flag before the first outcome standing in for the
outcome preceding position 0. -/
def recoverEdges : Bool → List FetchResult → Nat
  | _, [] => 0
  | a, f :: rest =>
    (if !a && f.isSuccess then 1 else 0) + recoverEdges f.isSuccess rest

/-- Modelled from the spec: the external Persisted State Store contract
(`async_get_last_state` is provided by the platform's `RestoreEntity`,
which is not part of this repository).  Per the spec a prior persisted
state carries the sensor's persisted boolean state. -/
structure PersistedState where
  state : Bool
  deriving Repr, DecidableEq

/-- `_restore_state()`: if a prior persisted state exists, assign its state
to `_is_on`; nothing else is touched. -/
def restore_state (st : EntityState) (last : Option PersistedState) : EntityState :=
  match last with
  | some ps => { st with is_on := ps.state }
  | none => st

/-- Result of the `async_added_to_hass` bootstrap: the resulting entity
state, whether the fetch capability was invoked, and whether
`async_write_ha_state` was called. -/
structure BootResult where
  st : EntityState
  fetchInvoked : Bool
  wrote : Bool
  deriving Repr, DecidableEq

/-- The branch of `async_added_to_hass` that runs after the four callback
registrations: when `self.id` is truthy, perform one fetch; on success
store the profile, push its `presence_status` through `_set_state` and
write HA state; on `HTTPUnauthorized` or on any other exception restore
persisted state.  When `self.id` is falsy, restore persisted state without
invoking the fetch capability. -/
def async_added_to_hass (cfg : Config) (st : EntityState) (fetch : FetchResult)
    (last : Option PersistedState) : BootResult :=
  if idTruthy cfg st then
    match fetch with
    | .ok p =>
      let st1 := { st with profile := some p }
      ⟨set_state cfg.connected_statuses st1 (some p.presence_status), true, true⟩
    | .authErr => ⟨restore_state st last, true, false⟩
    | .err => ⟨restore_state st last, true, false⟩
  else
    ⟨restore_state st last, false, false⟩

/-- A Python value inside the decoded event payload: a string, a nested
dict, or anything else. -/
inductive PyData where
  | str : String → PyData
  | dict : List (String × PyData) → PyData
  | other : PyData

/-- Dictionary lookup, `d.get(k)` / `d[k]` on the entries of a dict. -/
def dictGet : List (String × PyData) → String → Option PyData
  | [], _ => none
  | (k, v) :: rest, key => if k = key then some v else dictGet rest key

/-- Python `x == s` for a payload value `x` and a string `s`: true exactly
when `x` is that string (a dict or other value never equals a string). -/
def pyEqStr : PyData → String → Bool
  | .str s, t => s = t
  | _, _ => false

/-- `get_data_from_path(data, path)`: walk the path with
`data = data.get(val, {})` and return the final value if it is a string,
else `None`.  Calling `.get` on a non-dict intermediate value raises
`AttributeError`, modelled as `Except.error`. -/
def get_data_from_path : PyData → List String → Except Unit (Option String)
  | d, [] =>
    .ok (match d with
         | .str s => some s
         | _ => none)
  | .dict es, v :: rest => get_data_from_path ((dictGet es v).getD (.dict [])) rest
  | _, _ :: _ => .error ()

/-- Modelled from the spec: the constants `ATTR_EVENT`, `CONNECTIVITY_EVENT`,
`CONNECTIVITY_ID` and `CONNECTIVITY_STATUS` live in `const.py`, which is not
part of the sources; the event-matching logic is parametric in them (a key
for the event-type field, the connectivity event tag, and the two payload
paths). -/
structure EventConsts where
  attr_event : String
  connectivity_event : String
  connectivity_id : List String
  connectivity_status : List String

/-- `async_event_received(event)` of the authenticated-user sensor:
check `status["ha_config_entry_id"] == entry_id`, then
`status[ATTR_EVENT] == CONNECTIVITY_EVENT`, then compare the lower-cased
nested identity field with the lower-cased `self.id`; on a full match pass
the nested status field through `_set_state` and write HA state, else do
nothing.  A missing top-level key (`KeyError`), a `.lower()` call on `None`
(identity field absent or non-string, or `self.id` being `None`), or a
non-dict intermediate payload value (`AttributeError`) raises, modelled as
`Except.error`; no state mutation has happened at any raise point.
The result carries the new state and whether `async_write_ha_state` ran. -/
def async_event_received (k : EventConsts) (cfg : Config) (st : EntityState)
    (status : List (String × PyData)) : Except Unit (EntityState × Bool) :=
  match dictGet status "ha_config_entry_id" with
  | none => .error ()
  | some v1 =>
    if pyEqStr v1 cfg.entry_id then
      match dictGet status k.attr_event with
      | none => .error ()
      | some v2 =>
        if pyEqStr v2 k.connectivity_event then
          match get_data_from_path (.dict status) k.connectivity_id with
          | .error e => .error e
          | .ok none => .error ()
          | .ok (some evId) =>
            match entityId cfg st with
            | none => .error ()
            | some myId =>
              if evId.toLower = myId.toLower then
                match get_data_from_path (.dict status) k.connectivity_status with
                | .error e => .error e
                | .ok v => .ok (set_state cfg.connected_statuses st v, true)
              else
                .ok (st, false)
        else
          .ok (st, false)
    else
      .ok (st, false)

/-! ## Helper lemmas -/

theorem strTruthy_pyOr_left (a b : Option String) (h : strTruthy a = true) :
    pyOr a b = a := by
  unfold pyOr
  rw [if_pos h]

theorem idTruthy_of_confTruthy (cfg : Config) (st : EntityState)
    (h : strTruthy cfg.conf_id = true) : idTruthy cfg st = true := by
  unfold idTruthy entityId
  rw [strTruthy_pyOr_left _ _ h]
  exact h

theorem async_update_available (cfg : Config) (st : EntityState) (f : FetchResult)
    (h : idTruthy cfg st = true) :
    (async_update cfg st f).st.available = f.isSuccess := by
  unfold async_update
  rw [if_pos h]
  cases f with
  | ok p =>
    by_cases ha : st.available
    · simp [ha, FetchResult.isSuccess]
    · simp [ha, FetchResult.isSuccess, set_state]
  | authErr =>
    by_cases ha : st.available <;> simp [ha, FetchResult.isSuccess]
  | err =>
    by_cases ha : st.available <;> simp [ha, FetchResult.isSuccess]

theorem async_update_infoLogs (cfg : Config) (st : EntityState) (f : FetchResult)
    (h : idTruthy cfg st = true) :
    (async_update cfg st f).infoLogs = if !st.available && f.isSuccess then 1 else 0 := by
  unfold async_update
  rw [if_pos h]
  cases f with
  | ok p =>
    by_cases ha : st.available <;> simp [ha, FetchResult.isSuccess]
  | authErr =>
    by_cases ha : st.available <;> simp [ha, FetchResult.isSuccess]
  | err =>
    by_cases ha : st.available <;> simp [ha, FetchResult.isSuccess]

theorem async_update_warnLogs (cfg : Config) (st : EntityState) (f : FetchResult)
    (h : idTruthy cfg st = true) :
    (async_update cfg st f).warnLogs = if st.available && !f.isSuccess then 1 else 0 := by
  unfold async_update
  rw [if_pos h]
  cases f with
  | ok p =>
    by_cases ha : st.available <;> simp [ha, FetchResult.isSuccess]
  | authErr =>
    by_cases ha : st.available <;> simp [ha, FetchResult.isSuccess]
  | err =>
    by_cases ha : st.available <;> simp [ha, FetchResult.isSuccess]

theorem pollSeq_counts (cfg : Config) (h : strTruthy cfg.conf_id = true) :
    ∀ (fs : List FetchResult) (st : EntityState),
      (pollSeq cfg st fs).2.1 = recoverEdges st.available fs ∧
      (pollSeq cfg st fs).2.2 = failEdges st.available fs := by
  intro fs
  induction fs with
  | nil => intro st; simp [pollSeq, recoverEdges, failEdges]
  | cons f rest ih =>
    intro st
    have hid := idTruthy_of_confTruthy cfg st h
    have hava := async_update_available cfg st f hid
    have hinfo := async_update_infoLogs cfg st f hid
    have hwarn := async_update_warnLogs cfg st f hid
    have hrest := ih (async_update cfg st f).st
    rw [hava] at hrest
    simp [pollSeq, recoverEdges, failEdges, hinfo, hwarn, hrest.1, hrest.2]

theorem pyEqStr_eq_str (v : PyData) (s : String) (h : pyEqStr v s = true) :
    v = .str s := by
  cases v with
  | str t => simp [pyEqStr] at h; simp [h]
  | dict es => simp [pyEqStr] at h
  | other => simp [pyEqStr] at h

theorem async_event_received_ok_cases (k : EventConsts) (cfg : Config)
    (st : EntityState) (status : List (String × PyData)) (r : EntityState × Bool)
    (hr : async_event_received k cfg st status = .ok r) :
    r = (st, false) ∨
    (dictGet status "ha_config_entry_id" = some (.str cfg.entry_id) ∧
     dictGet status k.attr_event = some (.str k.connectivity_event) ∧
     ∃ evId myId,
       get_data_from_path (.dict status) k.connectivity_id = .ok (some evId) ∧
       entityId cfg st = some myId ∧ evId.toLower = myId.toLower) := by
  unfold async_event_received at hr
  split at hr
  · exact absurd hr (by simp)
  · rename_i v1 hv1
    split at hr
    · rename_i hc1
      split at hr
      · exact absurd hr (by simp)
      · rename_i v2 hv2
        split at hr
        · rename_i hc2
          split at hr
          · exact absurd hr (by simp)
          · exact absurd hr (by simp)
          · rename_i evId hev
            split at hr
            · exact absurd hr (by simp)
            · rename_i myId hmy
              split at hr
              · rename_i hlow
                split at hr
                · exact absurd hr (by simp)
                · right
                  exact ⟨hv1 ▸ congrArg _ (pyEqStr_eq_str v1 cfg.entry_id hc1),
                         hv2 ▸ congrArg _ (pyEqStr_eq_str v2 k.connectivity_event hc2),
                         evId, myId, hev, hmy, hlow⟩
              · left
                exact (Except.ok.inj hr).symm
        · left
          exact (Except.ok.inj hr).symm
    · left
      exact (Except.ok.inj hr).symm

/-! ## Claim theorems -/

/-- C1 (counterexample): the claim states that for every non-null raw status
S, after `_set_state(S)` the truth of `is_on` equals membership of S in the
configured connected-statuses set.  At S = `""` with connected statuses
`[""]` the source computes `"" and ("" in [""])`, which is `""` and hence
falsy, while membership holds, so the claim fails. -/
theorem C1_counterexample :
    ¬ ((set_state [""] initState (some "")).is_on = [""].contains "") := by
  decide

/-- C1 (amended): after `_set_state(S)` with connected-statuses set C,
`zoom_event_state` equals S; for null S, `is_on` is false; for non-null
non-empty S, `is_on` equals membership of S in C; for the empty-string S,
`is_on` is false (the Python conjunction `S and S in C` is falsy) even when
the empty string is a member of C. -/
theorem C1_set_state_status_mapper (cs : List String) (st : EntityState) (s : String) :
    (set_state cs st (some s)).zoom_event_state = some s ∧
    (set_state cs st none).zoom_event_state = none ∧
    (set_state cs st none).is_on = false ∧
    (s ≠ "" → (set_state cs st (some s)).is_on = cs.contains s) ∧
    (set_state cs st (some "")).is_on = false := by
  refine ⟨rfl, rfl, rfl, ?_, by simp [set_state]⟩
  intro hs
  simp [set_state, hs]

/-- C1 (witness): instantiation at S = "In Meeting", C = ["In Meeting"]. -/
theorem C1_set_state_status_mapper_witness :
    (set_state ["In Meeting"] initState (some "In Meeting")).is_on =
      ["In Meeting"].contains "In Meeting" :=
  (C1_set_state_status_mapper ["In Meeting"] initState "In Meeting").2.2.2.1 (by decide)

/-- C5: a successful poll while the entity is unavailable flips `available`
to true, sets `zoom_event_state` to the `presence_status` of the freshly
fetched profile, emits exactly one recovery log and no warning, and writes
HA state once. -/
theorem C5_poll_recovery (cfg : Config) (st : EntityState) (p : Profile)
    (hid : idTruthy cfg st = true) (ha : st.available = false) :
    (async_update cfg st (.ok p)).st.available = true ∧
    (async_update cfg st (.ok p)).st.zoom_event_state = some p.presence_status ∧
    (async_update cfg st (.ok p)).infoLogs = 1 ∧
    (async_update cfg st (.ok p)).warnLogs = 0 ∧
    (async_update cfg st (.ok p)).wrote = true := by
  unfold async_update
  rw [if_pos hid]
  simp [ha, set_state]

/-- C5 (witness): instantiation at a concrete unavailable entity. -/
theorem C5_poll_recovery_witness :
    idTruthy
        { conf_id := some "uid", connected_statuses := ["Available"],
          entry_id := "e1", coordinator_data := none }
        { initState with available := false } = true ∧
      (async_update
          { conf_id := some "uid", connected_statuses := ["Available"],
            entry_id := "e1", coordinator_data := none }
          { initState with available := false }
          (.ok { pid := some "uid", first_name := none, last_name := none,
                 email := none, account_id := none,
                 presence_status := "Available" })).st.available = true :=
  ⟨by decide,
   (C5_poll_recovery
      { conf_id := some "uid", connected_statuses := ["Available"],
        entry_id := "e1", coordinator_data := none }
      { initState with available := false }
      { pid := some "uid", first_name := none, last_name := none,
        email := none, account_id := none, presence_status := "Available" }
      (by decide) (by decide)).1⟩

/-- C6: a successful poll while the entity is already available leaves
`zoom_event_state` and `is_on` unchanged (the fetched `presence_status` is
not passed through the status mapper), emits no logs, and does not write
HA state. -/
theorem C6_poll_steady_state (cfg : Config) (st : EntityState) (p : Profile)
    (hid : idTruthy cfg st = true) (ha : st.available = true) :
    (async_update cfg st (.ok p)).st.zoom_event_state = st.zoom_event_state ∧
    (async_update cfg st (.ok p)).st.is_on = st.is_on ∧
    (async_update cfg st (.ok p)).infoLogs = 0 ∧
    (async_update cfg st (.ok p)).warnLogs = 0 ∧
    (async_update cfg st (.ok p)).wrote = false := by
  unfold async_update
  rw [if_pos hid]
  simp [ha]

/-- C6 (witness): instantiation at a concrete available entity. -/
theorem C6_poll_steady_state_witness :
    (async_update
        { conf_id := some "uid", connected_statuses := ["Available"],
          entry_id := "e1", coordinator_data := none }
        initState
        (.ok { pid := some "uid", first_name := none, last_name := none,
               email := none, account_id := none,
               presence_status := "Available" })).st.zoom_event_state =
      initState.zoom_event_state :=
  (C6_poll_steady_state
     { conf_id := some "uid", connected_statuses := ["Available"],
       entry_id := "e1", coordinator_data := none }
     initState
     { pid := some "uid", first_name := none, last_name := none,
       email := none, account_id := none, presence_status := "Available" }
     (by decide) (by decide)).1

/-- C9: when a prior persisted state exists, `_restore_state` assigns the
persisted state directly to `is_on` and touches nothing else: the raw
status, the profile and the availability flag keep their values, and the
status mapper is not involved. -/
theorem C9_restore_state_direct (st : EntityState) (ps : PersistedState) :
    (restore_state st (some ps)).is_on = ps.state ∧
    (restore_state st (some ps)).zoom_event_state = st.zoom_event_state ∧
    (restore_state st (some ps)).profile = st.profile ∧
    (restore_state st (some ps)).available = st.available :=
  ⟨rfl, rfl, rfl, rfl⟩

/-- C10: a successful poll always replaces the stored profile with the
freshly fetched one, even in steady state; when the entity was already
available, `zoom_event_state` and `is_on` are untouched while the derived
accessors (first_name, last_name, email, account_id, id) now read from the
new profile. -/
theorem C10_poll_replaces_profile (cfg : Config) (st : EntityState) (p : Profile)
    (hid : idTruthy cfg st = true) :
    (async_update cfg st (.ok p)).st.profile = some p ∧
    (st.available = true →
      (async_update cfg st (.ok p)).st.zoom_event_state = st.zoom_event_state ∧
      (async_update cfg st (.ok p)).st.is_on = st.is_on ∧
      first_name cfg (async_update cfg st (.ok p)).st = p.first_name ∧
      last_name cfg (async_update cfg st (.ok p)).st = p.last_name ∧
      email cfg (async_update cfg st (.ok p)).st = p.email ∧
      account_id cfg (async_update cfg st (.ok p)).st = p.account_id ∧
      entityId cfg (async_update cfg st (.ok p)).st = pyOr cfg.conf_id p.pid) := by
  unfold async_update
  rw [if_pos hid]
  by_cases ha : st.available
  · simp [ha, first_name, last_name, email, account_id, entityId, profileOf]
  · simp [ha, set_state]

/-- C10 (witness): instantiation at a concrete available entity whose poll
returns a profile with fresh attribute values. -/
theorem C10_poll_replaces_profile_witness :
    (async_update
        { conf_id := some "uid", connected_statuses := ["Available"],
          entry_id := "e1", coordinator_data := none }
        initState
        (.ok { pid := some "uid", first_name := some "Ann", last_name := none,
               email := none, account_id := none,
               presence_status := "Away" })).st.profile =
      some { pid := some "uid", first_name := some "Ann", last_name := none,
             email := none, account_id := none, presence_status := "Away" } :=
  (C10_poll_replaces_profile
     { conf_id := some "uid", connected_statuses := ["Available"],
       entry_id := "e1", coordinator_data := none }
     initState
     { pid := some "uid", first_name := some "Ann", last_name := none,
       email := none, account_id := none, presence_status := "Away" }
     (by decide)).1

/-- C2: with a truthy configured id (so the id is resolvable at every poll),
running the poller over any finite sequence of fetch outcomes emits exactly
as many warning logs as there are failure-after-success edges and exactly as
many recovery logs as there are success-after-failure edges, where the
availability flag before the first poll stands for the outcome preceding
position 0; in particular a failure while the entity is already unavailable
emits no log and no state write. -/
theorem C2_availability_edge_triggered (cfg : Config) (st : EntityState)
    (fs : List FetchResult) (h : strTruthy cfg.conf_id = true) :
    (pollSeq cfg st fs).2.1 = recoverEdges st.available fs ∧
    (pollSeq cfg st fs).2.2 = failEdges st.available fs ∧
    (st.available = false → async_update cfg st .err = ⟨st, 0, 0, false⟩) := by
  refine ⟨(pollSeq_counts cfg h fs st).1, (pollSeq_counts cfg h fs st).2, ?_⟩
  intro ha
  unfold async_update
  rw [if_pos (idTruthy_of_confTruthy cfg st h)]
  simp [ha]

/-- C2 (witness): three consecutive failures from an available entity yield
one warning; failure-recovery-failure-recovery yields two of each. -/
theorem C2_availability_edge_triggered_witness :
    strTruthy (some "uid") = true ∧
      (pollSeq
          { conf_id := some "uid", connected_statuses := ["Available"],
            entry_id := "e1", coordinator_data := none }
          initState [.err, .err, .err]).2.2 =
        failEdges initState.available [.err, .err, .err] :=
  ⟨by decide,
   (C2_availability_edge_triggered
      { conf_id := some "uid", connected_statuses := ["Available"],
        entry_id := "e1", coordinator_data := none }
      initState [.err, .err, .err] (by decide)).2.1⟩

/-- C7: when neither the configured id nor the profile id is truthy, the
bootstrap never invokes the fetch capability and restores persisted state. -/
theorem C7_bootstrap_unresolved_id (cfg : Config) (st : EntityState)
    (fetch : FetchResult) (last : Option PersistedState)
    (h1 : cfg.conf_id = none ∨ cfg.conf_id = some "")
    (h2 : (profileOf cfg st).bind Profile.pid = none ∨
          (profileOf cfg st).bind Profile.pid = some "") :
    async_added_to_hass cfg st fetch last = ⟨restore_state st last, false, false⟩ := by
  have hid : idTruthy cfg st = false := by
    rcases h1 with h1 | h1 <;> rcases h2 with h2 | h2 <;>
      simp [idTruthy, entityId, pyOr, strTruthy, h1, h2]
  unfold async_added_to_hass
  rw [if_neg (by simp [hid])]

/-- C7 (witness): an entity with no configured id, no profile and no
coordinator data restores state without fetching. -/
theorem C7_bootstrap_unresolved_id_witness :
    ({ conf_id := none, connected_statuses := ["Available"], entry_id := "e1",
       coordinator_data := none } : Config).conf_id = none ∧
      async_added_to_hass
          { conf_id := none, connected_statuses := ["Available"],
            entry_id := "e1", coordinator_data := none }
          initState .err (some { state := true }) =
        ⟨restore_state initState (some { state := true }), false, false⟩ :=
  ⟨rfl,
   C7_bootstrap_unresolved_id
     { conf_id := none, connected_statuses := ["Available"], entry_id := "e1",
       coordinator_data := none }
     initState .err (some { state := true }) (Or.inl rfl) (Or.inl (by decide))⟩

/-- C8: starting from the freshly initialized state (whose `available`
default is true), a bootstrap whose single fetch raises `HTTPUnauthorized`
restores persisted state without writing HA state, and `available` stays at
its initial default true. -/
theorem C8_bootstrap_auth_error (cfg : Config) (last : Option PersistedState)
    (hid : idTruthy cfg initState = true) :
    async_added_to_hass cfg initState .authErr last =
      ⟨restore_state initState last, true, false⟩ ∧
    (async_added_to_hass cfg initState .authErr last).st.available = true := by
  have h1 : async_added_to_hass cfg initState .authErr last =
      ⟨restore_state initState last, true, false⟩ := by
    unfold async_added_to_hass
    rw [if_pos hid]
  refine ⟨h1, ?_⟩
  rw [h1]
  cases last with
  | none => rfl
  | some ps => rfl

/-- C8 (witness): concrete bootstrap with a configured id, an auth failure
and a persisted prior state of false. -/
theorem C8_bootstrap_auth_error_witness :
    idTruthy
        { conf_id := some "uid", connected_statuses := ["Available"],
          entry_id := "e1", coordinator_data := none } initState = true ∧
      (async_added_to_hass
          { conf_id := some "uid", connected_statuses := ["Available"],
            entry_id := "e1", coordinator_data := none }
          initState .authErr (some { state := false })).st.available = true :=
  ⟨by decide,
   (C8_bootstrap_auth_error
      { conf_id := some "uid", connected_statuses := ["Available"],
        entry_id := "e1", coordinator_data := none }
      (some { state := false }) (by decide)).2⟩

/-- C3: a push event whose config-entry id value is not this entity's entry
id, or whose event-type value is not the connectivity tag, or whose nested
identity field does not case-insensitively match this entity's id, never
changes the entity state and never writes HA state: every normally returning
run is a no-op (the non-returning runs raise before any mutation). -/
theorem C3_event_mismatch_noop (k : EventConsts) (cfg : Config) (st : EntityState)
    (status : List (String × PyData))
    (h : dictGet status "ha_config_entry_id" ≠ some (.str cfg.entry_id) ∨
         dictGet status k.attr_event ≠ some (.str k.connectivity_event) ∨
         ¬ ∃ evId myId,
             get_data_from_path (.dict status) k.connectivity_id = .ok (some evId) ∧
             entityId cfg st = some myId ∧ evId.toLower = myId.toLower) :
    ∀ r, async_event_received k cfg st status = .ok r → r = (st, false) := by
  intro r hr
  rcases async_event_received_ok_cases k cfg st status r hr with h0 | ⟨m1, m2, m3⟩
  · exact h0
  · rcases h with h | h | h
    · exact absurd m1 h
    · exact absurd m2 h
    · exact absurd m3 h

/-- C3 (witness): a concrete event carrying a different config-entry id is
ignored without any state change. -/
theorem C3_event_mismatch_noop_witness :
    dictGet [("ha_config_entry_id", PyData.str "other_entry")]
        "ha_config_entry_id" ≠ some (.str "e1") ∧
      (initState, false) = (initState, false) :=
  ⟨by simp [dictGet],
   C3_event_mismatch_noop
     { attr_event := "event", connectivity_event := "connectivity",
       connectivity_id := ["payload", "object", "id"],
       connectivity_status := ["payload", "object", "presence_status"] }
     { conf_id := some "uid", connected_statuses := ["Available"],
       entry_id := "e1", coordinator_data := none }
     initState [("ha_config_entry_id", PyData.str "other_entry")]
     (Or.inl (by simp [dictGet]))
     (initState, false) (by rfl)⟩

/-- C4: a push event whose config-entry id matches, whose event type is the
connectivity tag, and whose nested identity field case-insensitively equals
this entity's id passes the nested status field through `_set_state` and
writes HA state — with no condition on `available`, which the handler
leaves unchanged. -/
theorem C4_event_match_overwrites (k : EventConsts) (cfg : Config)
    (st : EntityState) (status : List (String × PyData)) (evId myId : String)
    (v : Option String)
    (h1 : dictGet status "ha_config_entry_id" = some (.str cfg.entry_id))
    (h2 : dictGet status k.attr_event = some (.str k.connectivity_event))
    (h3 : get_data_from_path (.dict status) k.connectivity_id = .ok (some evId))
    (h4 : entityId cfg st = some myId)
    (h5 : evId.toLower = myId.toLower)
    (h6 : get_data_from_path (.dict status) k.connectivity_status = .ok v) :
    async_event_received k cfg st status =
      .ok (set_state cfg.connected_statuses st v, true) ∧
    (set_state cfg.connected_statuses st v).zoom_event_state = v ∧
    (set_state cfg.connected_statuses st v).available = st.available := by
  refine ⟨?_, rfl, rfl⟩
  simp [async_event_received, h1, h2, h3, h4, h5, h6, pyEqStr]

/-- C4 (witness): a concrete fully matching event overwrites the raw status
while the entity is unavailable, leaving `available` untouched. -/
theorem C4_event_match_overwrites_witness :
    entityId
        { conf_id := some "uid", connected_statuses := ["Available"],
          entry_id := "e1", coordinator_data := none }
        { initState with available := false } = some "uid" ∧
      async_event_received
          { attr_event := "event", connectivity_event := "connectivity",
            connectivity_id := ["payload", "id"],
            connectivity_status := ["payload", "status"] }
          { conf_id := some "uid", connected_statuses := ["Available"],
            entry_id := "e1", coordinator_data := none }
          { initState with available := false }
          [("ha_config_entry_id", PyData.str "e1"),
           ("event", PyData.str "connectivity"),
           ("payload", PyData.dict
              [("id", PyData.str "uid"), ("status", PyData.str "Available")])] =
        .ok (set_state ["Available"] { initState with available := false }
               (some "Available"), true) :=
  ⟨rfl,
   (C4_event_match_overwrites
     { attr_event := "event", connectivity_event := "connectivity",
       connectivity_id := ["payload", "id"],
       connectivity_status := ["payload", "status"] }
     { conf_id := some "uid", connected_statuses := ["Available"],
       entry_id := "e1", coordinator_data := none }
     { initState with available := false }
     [("ha_config_entry_id", PyData.str "e1"),
      ("event", PyData.str "connectivity"),
      ("payload", PyData.dict
         [("id", PyData.str "uid"), ("status", PyData.str "Available")])]
     "uid" "uid" (some "Available") rfl rfl rfl rfl rfl rfl).1⟩

end Zoom
